import Mathlib

/-!
Shallow embedding of the chunking and map-reduce summarization pipeline of
the ai-newsletter-system repository (src/text_chunker.py, src/summarizer.py,
src/config.py), together with theorems settling the frozen claims about it.

Modelling conventions:
* Python `int` is `Int`; list indices in slices follow Python slice semantics
  (`pySlice`).
* The tiktoken encoding is abstracted as an `Encoding` record (`encode`,
  `decode`); a concrete one-token-per-character encoding (`charEncoding`) is
  used for concrete evaluations.
* The `while` loop of `TextChunker.chunk_text` is modelled with explicit fuel
  (`chunkLoop`); a result of `none` means the loop did not finish within the
  given fuel, and `∀ fuel, … = none` means the loop never terminates.
* The external LLM (`self.llm.invoke`) is a parameter `llm : String → Option
  String`; `none` models a raised exception (network/backend error).  Every
  function that can call the model also returns the list of prompts it sent,
  in order, so that "number of model calls" is expressible.
* Python `str.format` with a single keyword argument on a template that
  contains a single replacement field is modelled by `Template.render`, which
  returns `none` (KeyError) when the keyword does not match the field name.
-/

namespace AINewsletter

/-- Python `str.strip()` with no argument: removes leading and trailing
whitespace characters. -/
def pyStrip (s : String) : String :=
  ⟨((s.data.dropWhile Char.isWhitespace).reverse.dropWhile
    Char.isWhitespace).reverse⟩

/-- Python slice-index normalization for a list of length `len`:
negative indices count from the end, then clamp into `[0, len]`. -/
def pySliceIdx (len : Nat) (i : Int) : Nat :=
  if i < 0 then ((len : Int) + i).toNat else min i.toNat len

/-- Python `l[a:b]` on a list. -/
def pySlice {α : Type} (l : List α) (a b : Int) : List α :=
  (l.take (pySliceIdx l.length b)).drop (pySliceIdx l.length a)

/-- Abstraction of a tiktoken encoding: `encode`/`decode` between text and
token sequences. -/
structure Encoding where
  encode : String → List Nat
  decode : List Nat → String

/-- Concrete encoding used for evaluation: one token per character. -/
def charEncoding : Encoding where
  encode s := s.data.map Char.toNat
  decode ts := String.mk (ts.map Char.ofNat)

/-- State of `TextChunker.__init__` (src/text_chunker.py lines 24-43): the two
integer parameters and the loaded encoding.  No validation is performed. -/
structure TextChunker where
  chunk_size : Int
  chunk_overlap : Int
  encoding : Encoding

/-- The `while start < total_tokens` loop of `TextChunker.chunk_text`
(src/text_chunker.py lines 84-100), with explicit fuel.  Each iteration:
`end = min(start + chunk_size, total)`, decode `tokens[start:end]`, append,
`start = end - chunk_overlap`, and break (returning the chunks) when the
updated `start >= total`.  `none` means the fuel ran out, i.e. the loop did
not terminate within `fuel` iterations. -/
def chunkLoop (c : TextChunker) (tokens : List Nat) (total start : Int)
    (acc : List String) : Nat → Option (List String)
  | 0 => none
  | fuel + 1 =>
    if start < total then
      if min (start + c.chunk_size) total - c.chunk_overlap ≥ total then
        some (acc ++ [c.encoding.decode
          (pySlice tokens start (min (start + c.chunk_size) total))])
      else
        chunkLoop c tokens total
          (min (start + c.chunk_size) total - c.chunk_overlap)
          (acc ++ [c.encoding.decode
            (pySlice tokens start (min (start + c.chunk_size) total))]) fuel
    else some acc

/-- Model of `TextChunker.chunk_text` (src/text_chunker.py lines 56-103): empty or
whitespace-only text yields `[]`; text of at most `chunk_size` tokens is
returned whole; otherwise the sliding-window loop runs. -/
def TextChunker.chunk_text (c : TextChunker) (text : String) (fuel : Nat) :
    Option (List String) :=
  if text = "" ∨ pyStrip text = "" then some []
  else if ((c.encoding.encode text).length : Int) ≤ c.chunk_size then some [text]
  else chunkLoop c (c.encoding.encode text)
    ((c.encoding.encode text).length : Int) 0 [] fuel

/-- Model of `chunk_paper_text` (src/text_chunker.py lines 106-117): builds a
`TextChunker` passing only `chunk_size`, so `chunk_overlap` takes the
default value `500` from `TextChunker.__init__`. -/
def chunk_paper_text (enc : Encoding) (text : String) (chunk_size : Int)
    (fuel : Nat) : Option (List String) :=
  TextChunker.chunk_text ⟨chunk_size, 500, enc⟩ text fuel

/-- Reference definition written from claim C10's words (not from the
source): a `TextChunker` constructed explicitly with `chunk_size` and
`chunk_overlap = 500`, applied to the text.  To be compared with
`chunk_paper_text` as translated from the source. -/
def chunk_paper_text_claim (enc : Encoding) (text : String) (chunk_size : Int)
    (fuel : Nat) : Option (List String) :=
  TextChunker.chunk_text ⟨chunk_size, 500, enc⟩ text fuel

/-- Constant `config.CHUNK_SIZE` (src/config.py line 60). -/
def CHUNK_SIZE : Int := 20000

/-- Constant `config.CHUNK_OVERLAP` (src/config.py line 61). -/
def CHUNK_OVERLAP : Int := 500

/-- A Python format string containing exactly one replacement field, split as
the text before the field, the field's name, and the text after it.  The
Python literal is `pre ++ "\x7b" ++ field ++ "\x7d" ++ suf`. -/
structure Template where
  pre : String
  field : String
  suf : String

/-- Python `template.format(key=value)` for a template with a single
replacement field: substitutes when the keyword matches the field name, and
raises `KeyError` (modelled as `none`) when the template's field name is not
among the supplied keywords. -/
def Template.render (t : Template) (key value : String) : Option String :=
  if key = t.field then some (t.pre ++ value ++ t.suf) else none

/-- Template `config.MAP_PROMPT` (src/config.py lines 75-91); its replacement field
is named `text`. -/
def MAP_PROMPT : Template where
  pre :=
    "You are an expert AI Researcher analyzing a specific segment of a research paper. \n" ++
    "Your goal is to extract high-value technical information for a deep-dive newsletter.\n" ++
    "\n<instructions>\n" ++
    "1. Analyze Content Type: Determine if this segment discusses the Problem, Methodology/Architecture, Experimental Results, or Related Work. (Note: Papers use varied section headers; rely on the actual text content).\n" ++
    "2. Extract Technical Specs: Look for architecture dimensions (parameter counts, layers), training details (batch size, hardware), and algorithms.\n" ++
    "3. Extract Hard Metrics: If this segment contains results, extract specific numbers (e.g., \"85.2% on MMLU\", \"latency reduction of 40ms\"). Do not summarize vaguely; copy the exact numbers.\n" ++
    "4. Ignore Fluff: Disregard general introductory text or broad claims of impact unless backed by data in this segment.\n" ++
    "5. Output: A structured list of distinct facts found ONLY in this segment.\n" ++
    "</instructions>\n\n<paper_segment>\n"
  field := "text"
  suf := "\n</paper_segment>\n\n**Extracted Technical Notes:**\n"

/-- Template `config.REDUCE_PROMPT` (src/config.py lines 95-130); its replacement
field is named `text` (not `summaries`). -/
def REDUCE_PROMPT : Template where
  pre :=
    "You are the Lead Technical Editor for a specialized AI research newsletter read by senior engineers and researchers.\n" ++
    "Your goal is to synthesize the extracted notes from a full paper into a single, dense technical summary.\n" ++
    "\n<audience_profile>\n" ++
    "- The readers are deep technical experts.\n" ++
    "- They value specific architectural details, hyperparameters, and exact benchmark scores.\n" ++
    "- They dislike buzzwords (\"revolutionary\", \"unprecedented\") and vague summaries (\"performed well\").\n" ++
    "</audience_profile>\n" ++
    "\n<output_schema>\n" ++
    "Produce a summary in strict Markdown using exactly these headers:\n" ++
    "\n# [Paper Title]\n" ++
    "\n**TL;DR:** (1 bold sentence explaining the core technical innovation)\n" ++
    "\n### The Problem\n" ++
    "(2 sentences on the specific technical bottleneck or gap this paper addresses)\n" ++
    "\n### Methodology & Architecture\n" ++
    "(Deep dive into *how* it works. Mention specific mechanism names, loss functions, architectural changes, or training recipes. Use bullet points if describing a multi-step process.)\n" ++
    "\n### Key Results & Metrics\n" ++
    "(List the most critical quantitative results. Compare against SOTA if mentioned. Format as bullet points with bold metrics.)\n" ++
    "* **Metric Name**: Value (Context/Comparison)\n" ++
    "\n### Core Takeaway\n" ++
    "(1 sentence on the immediate utility of this method for engineers.)\n" ++
    "</output_schema>\n" ++
    "\n<input_notes>\n"
  field := "text"
  suf := "\n</input_notes>\n\n**Final Technical Report:**\n"

/-- Model of `PaperSummarizer.summarize_chunk` (src/summarizer.py lines 69-89).  The
external model call `self.llm.invoke` is the parameter `llm`; `none` models a
raised exception.  The whole body is inside `try/except`, which catches both
a `KeyError` from `format` and a model failure and returns `None`.  The
second component lists the prompts actually sent to the model. -/
def summarize_chunk (llm : String → Option String) (chunk : String) :
    Option String × List String :=
  match MAP_PROMPT.render "text" chunk with
  | none => (none, [])
  | some prompt =>
    match llm prompt with
    | none => (none, [prompt])
    | some content => (some (pyStrip content), [prompt])

/-- Model of `PaperSummarizer.combine_summaries` (src/summarizer.py lines 91-113):
joins the summaries with `"\n\n---\n\n"`, then evaluates
`config.REDUCE_PROMPT.format(summaries=combined)` — note the keyword is
`summaries` — before invoking the model; any exception is caught and `None`
returned. -/
def combine_summaries (llm : String → Option String) (summaries : List String) :
    Option String × List String :=
  match REDUCE_PROMPT.render "summaries" (String.intercalate "\n\n---\n\n" summaries) with
  | none => (none, [])
  | some prompt =>
    match llm prompt with
    | none => (none, [prompt])
    | some content => (some (pyStrip content), [prompt])

/-- The Map phase of `PaperSummarizer.summarize_paper` (src/summarizer.py
lines 136-144): each chunk is summarized in order. -/
def mapResults (llm : String → Option String) (chunks : List String) :
    List (Option String × List String) :=
  chunks.map (summarize_chunk llm)

/-- All prompts sent to the model during the Map phase, in order. -/
def mapPrompts (llm : String → Option String) (chunks : List String) :
    List String :=
  ((mapResults llm chunks).map Prod.snd).flatten

/-- The surviving chunk summaries: the Python loop appends `summary` only
when `if summary:` holds, i.e. when it is neither `None` nor the empty
string (src/summarizer.py lines 141-144). -/
def chunkSummaries (llm : String → Option String) (chunks : List String) :
    List String :=
  (mapResults llm chunks).filterMap (fun r =>
    match r.fst with
    | some s => if s = "" then none else some s
    | none => none)

/-- Model of `PaperSummarizer.summarize_paper` (src/summarizer.py lines 115-160).
Returns `none` only when chunking itself fails to terminate (fuel ran out);
otherwise `some (result, prompts)` where `result` is the Python return value
(`None` modelled as `none`) and `prompts` lists every prompt sent to the
model, Map phase first, then the Reduce phase if reached. -/
def summarize_paper (enc : Encoding) (llm : String → Option String)
    (text : String) (fuel : Nat) : Option (Option String × List String) :=
  match chunk_paper_text enc text CHUNK_SIZE fuel with
  | none => none
  | some chunks =>
    if chunks = [] then some (none, [])
    else
      match chunkSummaries llm chunks with
      | [] => some (none, mapPrompts llm chunks)
      | [s] => some (some s, mapPrompts llm chunks)
      | s1 :: s2 :: rest =>
        some ((combine_summaries llm (s1 :: s2 :: rest)).fst,
          mapPrompts llm chunks ++ (combine_summaries llm (s1 :: s2 :: rest)).snd)

/-! ## Chunking loop behaviour -/

/-- Whenever `chunk_overlap > 0`, the window loop of `chunk_text` never
terminates once entered: the updated start `min (start + size) total -
overlap` is always `< total`, so neither the `break` (which requires
`start ≥ total`) nor the `while` condition can ever stop it. -/
theorem chunkLoop_none (c : TextChunker) (tokens : List Nat) (total : Int)
    (hov : 0 < c.chunk_overlap) :
    ∀ (fuel : Nat) (start : Int) (acc : List String), start < total →
      chunkLoop c tokens total start acc fuel = none := by
  intro fuel
  induction fuel with
  | zero => intro start acc _; rfl
  | succ n ih =>
    intro start acc h
    have hmin : min (start + c.chunk_size) total ≤ total := min_le_right _ _
    simp only [chunkLoop]
    rw [if_pos h, if_neg (by omega)]
    exact ih _ _ (by omega)

/-- Claim C2: the spec claims the chunking loop terminates for every document
longer than `chunk_size` under a valid configuration
`0 < chunk_overlap < chunk_size`.  The code disproves this: the loop's
exit test compares the updated `start` (which is always at least
`chunk_overlap` short of `total_tokens`) with `total_tokens`, so for every
such document and configuration `chunk_text` never returns, whatever the
fuel. -/
theorem chunk_text_nonterminating (c : TextChunker) (text : String)
    (fuel : Nat) (hne : ¬ (text = "" ∨ pyStrip text = ""))
    (hov : 0 < c.chunk_overlap) (hvalid : c.chunk_overlap < c.chunk_size)
    (hbig : c.chunk_size < ((c.encoding.encode text).length : Int)) :
    TextChunker.chunk_text c text fuel = none := by
  unfold TextChunker.chunk_text
  rw [if_neg hne, if_neg (by omega)]
  exact chunkLoop_none c _ _ hov fuel 0 [] (by omega)

/-- Witness for C2 at a concrete input: the character encoding, chunk size
10, overlap 3, and a 15-character document; with fuel 100 the loop has not
finished (and by the theorem it never will). -/
theorem chunk_text_nonterminating_witness :
    ¬ (("abcdefghijklmno" : String) = "" ∨ pyStrip "abcdefghijklmno" = "") ∧
    (0 : Int) < 3 ∧ (3 : Int) < 10 ∧
    (10 : Int) < ((charEncoding.encode "abcdefghijklmno").length : Int) ∧
    TextChunker.chunk_text ⟨10, 3, charEncoding⟩ "abcdefghijklmno" 100 = none :=
  ⟨by decide, by decide, by decide, by decide,
    chunk_text_nonterminating ⟨10, 3, charEncoding⟩ "abcdefghijklmno" 100
      (by decide) (by decide) (by decide) (by decide)⟩

/-- Claim C3: the spec claims a configuration with `chunk_overlap ≥ chunk_size`
is rejected with `ChunkingConfigInvalid` before any work.  Neither
`TextChunker.__init__` nor `chunk_text` validates anything: with
`chunk_size = chunk_overlap = 10` the code happily chunks a short document
(no error), and on a 15-token document it enters the window loop and never
returns. -/
theorem chunk_text_overlap_not_validated (fuel : Nat) :
    TextChunker.chunk_text ⟨10, 10, charEncoding⟩ "abcdefghijklmno" fuel = none ∧
    TextChunker.chunk_text ⟨10, 10, charEncoding⟩ "ab" fuel = some ["ab"] := by
  constructor
  · unfold TextChunker.chunk_text
    rw [if_neg (by decide), if_neg (by decide)]
    exact chunkLoop_none _ _ _ (by decide) fuel 0 [] (by decide)
  · unfold TextChunker.chunk_text
    rw [if_neg (by decide), if_pos (by decide)]

/-- Claim C4: the spec claims that for documents longer than `chunk_size` (valid
overlap) the produced chunk sequence covers `[0, total_tokens)` with exact
`chunk_overlap`-sized overlaps.  No such sequence is ever produced: on any
such document `chunk_text` never returns (here chunk size 4, overlap 1, a
6-character document), so the claimed coverage property has no witness to
hold of. -/
theorem chunk_text_no_chunk_sequence (fuel : Nat) :
    TextChunker.chunk_text ⟨4, 1, charEncoding⟩ "abcdef" fuel = none := by
  unfold TextChunker.chunk_text
  rw [if_neg (by decide), if_neg (by decide)]
  exact chunkLoop_none _ _ _ (by decide) fuel 0 [] (by decide)

/-! ## Reduce stage -/

/-- Claim C1: the spec claims the Reduce stage issues exactly one model call with
the synthesis template rendered around the joined notes.  In the code,
`combine_summaries` evaluates `REDUCE_PROMPT.format(summaries=combined)`,
but the template's only replacement field is named `text`, so `format`
raises `KeyError` before `self.llm.invoke` is ever reached; the `except`
clause turns this into `None`.  Hence for every model backend and every
list of summaries the Reduce stage makes zero model calls and returns
absence. -/
theorem combine_summaries_never_calls_model (llm : String → Option String)
    (summaries : List String) :
    combine_summaries llm summaries = (none, []) := rfl

/-! ## Single-chunk and blank-document behaviour -/

/-- Counterexample to C6 as stated: the one-space document is non-empty and
fits in one chunk, yet chunking returns `[]` rather than `[" "]`, because
the whitespace-only test precedes the single-chunk test. -/
theorem chunk_text_whitespace_counterexample :
    (" " : String) ≠ "" ∧
    ((charEncoding.encode " ").length : Int) ≤ 20000 ∧
    TextChunker.chunk_text ⟨20000, 500, charEncoding⟩ " " 1 = some [] ∧
    TextChunker.chunk_text ⟨20000, 500, charEncoding⟩ " " 1 ≠ some [" "] :=
  ⟨by decide, by decide, by decide, by decide⟩

/-- Claim C6 amended: for every document that is non-empty and not
whitespace-only and whose token count is at most `chunk_size`, `chunk_text`
returns exactly the one chunk `[text]`, byte-identical to the input. -/
theorem chunk_text_single_chunk (c : TextChunker) (text : String) (fuel : Nat)
    (hne : text ≠ "") (hns : pyStrip text ≠ "")
    (hfit : ((c.encoding.encode text).length : Int) ≤ c.chunk_size) :
    TextChunker.chunk_text c text fuel = some [text] := by
  unfold TextChunker.chunk_text
  rw [if_neg (by tauto), if_pos hfit]

/-- Witness for the amended C6 at a concrete input. -/
theorem chunk_text_single_chunk_witness :
    ("ab" : String) ≠ "" ∧ pyStrip "ab" ≠ "" ∧
    ((charEncoding.encode "ab").length : Int) ≤ 20000 ∧
    TextChunker.chunk_text ⟨20000, 500, charEncoding⟩ "ab" 1 = some ["ab"] :=
  ⟨by decide, by decide, by decide,
    chunk_text_single_chunk ⟨20000, 500, charEncoding⟩ "ab" 1
      (by decide) (by decide) (by decide)⟩

/-- Claim C9: a blank (empty or whitespace-only) document yields an empty chunk
sequence — not an error — and the pipeline then reports overall failure
with an empty model-call trace (no model calls at all). -/
theorem blank_document_no_model_calls (c : TextChunker) (enc : Encoding)
    (llm : String → Option String) (text : String) (fuel : Nat)
    (hblank : pyStrip text = "") :
    TextChunker.chunk_text c text fuel = some [] ∧
    summarize_paper enc llm text fuel = some (none, []) := by
  have h1 : ∀ c' : TextChunker, TextChunker.chunk_text c' text fuel = some [] := by
    intro c'
    unfold TextChunker.chunk_text
    rw [if_pos (Or.inr hblank)]
  refine ⟨h1 c, ?_⟩
  unfold summarize_paper chunk_paper_text
  rw [h1 ⟨CHUNK_SIZE, 500, enc⟩]
  rfl

/-- Witness for C9 at a concrete input: a whitespace-only document. -/
theorem blank_document_no_model_calls_witness :
    pyStrip "  " = "" ∧
    TextChunker.chunk_text ⟨20000, 500, charEncoding⟩ "  " 1 = some [] ∧
    summarize_paper charEncoding (fun _ => some "x") "  " 1 = some (none, []) := by
  refine ⟨by decide, ?_, ?_⟩
  · exact (blank_document_no_model_calls ⟨20000, 500, charEncoding⟩ charEncoding
      (fun _ => some "x") "  " 1 (by decide)).1
  · exact (blank_document_no_model_calls ⟨20000, 500, charEncoding⟩ charEncoding
      (fun _ => some "x") "  " 1 (by decide)).2

/-- Claim C10: the pipeline's chunking entry point `chunk_paper_text` coincides
with the claim's reference `TextChunker(chunk_size, chunk_overlap=500)
.chunk_text(text)` on every input: the overlap is always the constructor
default `500`, and `config.CHUNK_OVERLAP` is not consulted (it appears in
no definition of the chunking path). -/
theorem chunk_paper_text_uses_default_overlap (enc : Encoding) (text : String)
    (chunk_size : Int) (fuel : Nat) :
    chunk_paper_text enc text chunk_size fuel =
      chunk_paper_text_claim enc text chunk_size fuel := rfl

/-! ## Map stage and pipeline driver -/

/-- Rendering `MAP_PROMPT.format(text=chunk)` always succeeds and renders the chunk
into the template, so `summarize_chunk` is determined by the model's answer
on that one prompt. -/
theorem summarize_chunk_eq (llm : String → Option String) (c : String) :
    summarize_chunk llm c =
      match llm (MAP_PROMPT.pre ++ c ++ MAP_PROMPT.suf) with
      | none => (none, [MAP_PROMPT.pre ++ c ++ MAP_PROMPT.suf])
      | some content =>
        (some (pyStrip content), [MAP_PROMPT.pre ++ c ++ MAP_PROMPT.suf]) := rfl

/-- Dropping one element on which `f` returns `none` does not change a
`filterMap`. -/
theorem filterMap_eraseIdx_of_none {α β : Type} (f : α → Option β) :
    ∀ (l : List α) (i : Nat) (h : i < l.length), f (l.get ⟨i, h⟩) = none →
      l.filterMap f = (l.eraseIdx i).filterMap f := by
  intro l
  induction l with
  | nil => intro i h _; exact absurd h (by simp)
  | cons a t ih =>
    intro i h hf
    cases i with
    | zero =>
      simp only [List.get] at hf
      simp [List.eraseIdx, List.filterMap_cons, hf]
    | succ j =>
      have h' : j < t.length := by simpa using h
      simp only [List.get] at hf
      simp only [List.eraseIdx, List.filterMap_cons]
      rw [ih j h' hf]

/-- Every chunk handed to the Map stage produces exactly one model call,
whose prompt is the extraction template rendered with that chunk. -/
theorem mapPrompts_eq (llm : String → Option String) :
    ∀ chunks : List String, mapPrompts llm chunks =
      chunks.map (fun c => MAP_PROMPT.pre ++ c ++ MAP_PROMPT.suf) := by
  intro chunks
  induction chunks with
  | nil => rfl
  | cons c t ih =>
    have hsnd : (summarize_chunk llm c).snd =
        [MAP_PROMPT.pre ++ c ++ MAP_PROMPT.suf] := by
      rw [summarize_chunk_eq]
      cases llm (MAP_PROMPT.pre ++ c ++ MAP_PROMPT.suf) <;> rfl
    simp only [mapPrompts, mapResults, List.map_cons, List.flatten_cons] at ih ⊢
    rw [hsnd, ih]
    rfl

/-- Claim C7: a failed Map-stage model invocation is recovered locally.  If the
model fails on chunk `i`'s prompt then (a) `summarize_chunk` reports
absence for that chunk rather than propagating the failure, (b) the
surviving notes are exactly those of the remaining chunks (the failed chunk
is excluded, every other chunk is still summarized), (c) every chunk still
gets exactly one Map-stage model call, and (d) on success the note is the
model's output with leading and trailing whitespace stripped. -/
theorem map_failure_recovered_locally (llm : String → Option String)
    (chunks : List String) (i : Nat) (h : i < chunks.length)
    (hfail : llm (MAP_PROMPT.pre ++ chunks.get ⟨i, h⟩ ++ MAP_PROMPT.suf) = none) :
    (summarize_chunk llm (chunks.get ⟨i, h⟩)).fst = none ∧
    chunkSummaries llm chunks = chunkSummaries llm (chunks.eraseIdx i) ∧
    mapPrompts llm chunks =
      chunks.map (fun c => MAP_PROMPT.pre ++ c ++ MAP_PROMPT.suf) ∧
    (∀ c r, llm (MAP_PROMPT.pre ++ c ++ MAP_PROMPT.suf) = some r →
      (summarize_chunk llm c).fst = some (pyStrip r)) := by
  have hnone : (summarize_chunk llm (chunks.get ⟨i, h⟩)).fst = none := by
    rw [summarize_chunk_eq, hfail]
  refine ⟨hnone, ?_, mapPrompts_eq llm chunks, ?_⟩
  · have hrw : ∀ l : List String, chunkSummaries llm l =
        l.filterMap (fun c =>
          match (summarize_chunk llm c).fst with
          | some s => if s = "" then none else some s
          | none => none) := by
      intro l
      simp only [chunkSummaries, mapResults, List.filterMap_map]
      rfl
    rw [hrw, hrw]
    exact filterMap_eraseIdx_of_none _ chunks i h (by rw [hnone])
  · intro c r hr
    rw [summarize_chunk_eq, hr]

/-- Witness for C7 at a concrete input: two chunks and a model that fails
on every call; the theorem applies at index 0. -/
theorem map_failure_recovered_locally_witness :
    0 < (["a", "b"] : List String).length ∧
    ((summarize_chunk (fun _ => none)
        ((["a", "b"] : List String).get ⟨0, by decide⟩)).fst = none ∧
      chunkSummaries (fun _ => none) ["a", "b"] =
        chunkSummaries (fun _ => none) ((["a", "b"] : List String).eraseIdx 0) ∧
      mapPrompts (fun _ => none) ["a", "b"] =
        (["a", "b"] : List String).map
          (fun c => MAP_PROMPT.pre ++ c ++ MAP_PROMPT.suf) ∧
      (∀ c r, (fun _ => (none : Option String))
          (MAP_PROMPT.pre ++ c ++ MAP_PROMPT.suf) = some r →
        (summarize_chunk (fun _ => none) c).fst = some (pyStrip r))) :=
  ⟨by decide, map_failure_recovered_locally (fun _ => none) ["a", "b"] 0
    (by decide) rfl⟩

/-- Claim C5: when exactly one ChunkNote survives the Map stage, the pipeline
returns it verbatim as the final report, and the model-call trace consists
of the Map-stage prompts only — the Reduce stage is never invoked. -/
theorem single_surviving_note_verbatim (enc : Encoding)
    (llm : String → Option String) (text : String) (fuel : Nat)
    (chunks : List String) (s : String)
    (hchunks : chunk_paper_text enc text CHUNK_SIZE fuel = some chunks)
    (hone : chunkSummaries llm chunks = [s]) :
    summarize_paper enc llm text fuel = some (some s, mapPrompts llm chunks) := by
  cases chunks with
  | nil => simp [chunkSummaries, mapResults] at hone
  | cons c0 cs =>
    simp only [summarize_paper, hchunks]
    rw [if_neg (List.cons_ne_nil c0 cs), hone]

/-- Witness for C5 at a concrete input: a short document chunked whole,
with a model that answers every prompt with `"note"`. -/
theorem single_surviving_note_verbatim_witness :
    chunk_paper_text charEncoding "ab" CHUNK_SIZE 1 = some ["ab"] ∧
    chunkSummaries (fun _ => some "note") ["ab"] = ["note"] ∧
    summarize_paper charEncoding (fun _ => some "note") "ab" 1 =
      some (some "note", mapPrompts (fun _ => some "note") ["ab"]) :=
  ⟨by decide, rfl, single_surviving_note_verbatim charEncoding
    (fun _ => some "note") "ab" 1 ["ab"] "note" (by decide) rfl⟩

/-- Claim C8: when zero ChunkNotes survive the Map stage, the pipeline reports
overall failure for that backend, and the model-call trace consists of the
Map-stage prompts only — the Reduce stage is never invoked. -/
theorem all_chunks_failed_no_reduce (enc : Encoding)
    (llm : String → Option String) (text : String) (fuel : Nat)
    (chunks : List String)
    (hchunks : chunk_paper_text enc text CHUNK_SIZE fuel = some chunks)
    (hnone : chunkSummaries llm chunks = []) :
    summarize_paper enc llm text fuel = some (none, mapPrompts llm chunks) := by
  cases chunks with
  | nil =>
    simp only [summarize_paper, hchunks]
    rfl
  | cons c0 cs =>
    simp only [summarize_paper, hchunks]
    rw [if_neg (List.cons_ne_nil c0 cs), hnone]

/-- Witness for C8 at a concrete input: a model that fails on every call. -/
theorem all_chunks_failed_no_reduce_witness :
    chunk_paper_text charEncoding "ab" CHUNK_SIZE 1 = some ["ab"] ∧
    chunkSummaries (fun _ => none) ["ab"] = [] ∧
    summarize_paper charEncoding (fun _ => none) "ab" 1 =
      some (none, mapPrompts (fun _ => none) ["ab"]) :=
  ⟨by decide, rfl, all_chunks_failed_no_reduce charEncoding
    (fun _ => none) "ab" 1 ["ab"] (by decide) rfl⟩

end AINewsletter
